import Mathlib

/-! wmctrl-wrapper.

A shallow embedding of `lib/wmctrl-wrapper.js`: the class `Wmctrl`, its constructor, the
generic `execute` method and the seventeen convenience methods that format an argument string
and hand it to `execute`.

The host (Node.js) is explicit: `os.arch()`, `__dirname` and `path.join` are fields of `Host`;
what `console.log` printed and which commands `child_process.exec` accepted are recorded in
`World`; the promise returned by `execute` carries what the executor threw, if it threw, and
the callback given to `exec`, as a function of what the child process reported.  Template
literals use ECMAScript `ToString`, which throws for some values; the conditional operator uses
`ToBoolean`.  A method whose template throws returns the thrown value and calls nothing.
-/

namespace WmctrlWrapper

/-! ## JavaScript values -/

/-- A JavaScript Number (IEEE-754 binary64).  `fin neg m e` is the finite value
`(-1)^neg * m * 2^(e - 1074)`, in canonical form when `m < 2^53`, `e ≤ 2045` and
(`2^52 ≤ m` or `e = 0`); `fin false 0 0` is `+0` and `fin true 0 0` is `-0`. -/
inductive JSNumber where
  | nan
  | inf (neg : Bool)
  | fin (neg : Bool) (m : Nat) (e : Nat)
  deriving DecidableEq

/-- A JavaScript value passed as an argument: `undefined` (also a missing argument), `null`,
a boolean, a number, a string, a BigInt, a Symbol or an object.  An object (an array and a
function are objects) is given by what converting it to a string yields: the text that its
conversion methods return, or `none` when the conversion throws; the conversion is taken to
have no other effect. -/
inductive JSValue where
  | undefined
  | null
  | bool (b : Bool)
  | num (x : JSNumber)
  | str (s : String)
  | bigint (n : Int)
  | symbol (description : Option String)
  | object (text : Option String)
  deriving DecidableEq

/-- What a method or the executor of a promise can throw. -/
inductive Thrown where
  /-- The `TypeError` of `ToString` applied to a Symbol. -/
  | symbolToString
  /-- What the conversion of an object argument to a string threw. -/
  | argumentConversion
  /-- The `TypeError` (`ERR_INVALID_ARG_VALUE`) of `child_process.exec` for a command that
  contains a null byte. -/
  | nullByte
  deriving DecidableEq

/-- The character U+0000. -/
def nul : Char := Char.ofNat 0

/-- Floor of the binary logarithm, by repeated halving. -/
def ilog2 : Nat → Nat → Nat
  | 0, _ => 0
  | fuel + 1, n => if n < 2 then 0 else ilog2 fuel (n / 2) + 1

/-- The Number value of a non-negative integer with the given sign: the integer itself when it
fits 53 bits, otherwise rounded to the nearest double, ties to even. -/
def JSNumber.ofNat (neg : Bool) (n : Nat) : JSNumber :=
  if n = 0 then .fin neg 0 0
  else
    let b := ilog2 n n
    if b ≤ 52 then .fin neg (n * 2 ^ (52 - b)) (1022 + b)
    else
      let shift := b - 52
      let q := n / 2 ^ shift
      let r := n % 2 ^ shift
      let half := 2 ^ (shift - 1)
      let up := decide (half < r) || (decide (r = half) && decide (q % 2 = 1))
      let m := if up then q + 1 else q
      let m1 := if m = 2 ^ 53 then 2 ^ 52 else m
      let e1 := if m = 2 ^ 53 then 1074 + shift + 1 else 1074 + shift
      if 2045 < e1 then .inf neg else .fin neg m1 e1

/-- The Number value of an integer literal. -/
def JSNumber.ofInt : Int → JSNumber
  | .ofNat n => JSNumber.ofNat false n
  | .negSucc n => JSNumber.ofNat true (n + 1)

/-! ### `Number::toString` (radix 10)

Quantities below are scaled by `2^1076`, so that a double `m * 2^(e - 1074)` and the midpoints
to its two neighbours are natural numbers. -/

/-- The scaling factor `4 * 2^1074`. -/
def scale : Nat := 2 ^ 1076

/-- Compare the decimal `s * 10^p` with the scaled bound `b`. -/
def cmpDec (s : Nat) (p : Int) (b : Nat) : Ordering :=
  if 0 ≤ p then compare (s * 10 ^ p.toNat * scale) b
  else compare (s * scale) (b * 10 ^ (-p).toNat)

/-- Search upwards for the least `d` with `x < 10^d`. -/
def decExpFrom (x : Nat) : Nat → Int → Int
  | 0, d => d
  | fuel + 1, d => if cmpDec 1 d x == .gt then d else decExpFrom x fuel (d + 1)

/-- The decimal exponent `n` of a positive double: `10^(n-1) ≤ x < 10^n`. -/
def decExp (x : Nat) : Int := decExpFrom x 640 (-324)

/-- The integer part of `x / 10^p`. -/
def floorDec (x : Nat) (p : Int) : Nat :=
  if 0 ≤ p then x / (10 ^ p.toNat * scale) else (x * 10 ^ (-p).toNat) / scale

/-- Whether the decimal `s * 10^p` reads back as the double whose rounding interval is
`lo .. hi` (end points included exactly when the double's significand is even). -/
def inside (lo hi : Nat) (closed : Bool) (s : Nat) (p : Int) : Bool :=
  if closed then cmpDec s p lo != .lt && cmpDec s p hi != .gt
  else cmpDec s p lo == .gt && cmpDec s p hi == .lt

/-- The distance between the decimal `s * 10^p` and `x`, in a unit that depends on `p` only. -/
def distDec (x : Nat) (s : Nat) (p : Int) : Nat :=
  if 0 ≤ p then
    let v := s * 10 ^ p.toNat * scale
    if v ≤ x then x - v else v - x
  else
    let v := s * scale
    let y := x * 10 ^ (-p).toNat
    if v ≤ y then y - v else v - y

/-- The `k`-digit decimal nearest to `x` among those that read back as the same double. -/
def candidate (x lo hi : Nat) (closed : Bool) (d : Int) (k : Nat) : Option Nat :=
  let p := d - (k : Int)
  let sLo := floorDec x p
  let sHi := sLo + 1
  match inside lo hi closed sLo p, inside lo hi closed sHi p with
  | false, false => none
  | true, false => some sLo
  | false, true => some sHi
  | true, true =>
    let a := distDec x sLo p
    let b := distDec x sHi p
    if a < b then some sLo else if b < a then some sHi
    else if sLo % 2 = 0 then some sLo else some sHi

/-- Try `k`, `k + 1`, ... digits; the first success gives the digits `s` and the exponent `n`. -/
def shortestFrom (x lo hi : Nat) (closed : Bool) (d : Int) : Nat → Nat → Nat × Int
  | 0, k => (floorDec x (d - (k : Int)), d)
  | fuel + 1, k =>
    match candidate x lo hi closed d k with
    | some s => if s = 10 ^ k then (1, d + 1) else (s, d)
    | none => shortestFrom x lo hi closed d fuel (k + 1)

/-- The integers `s` and `n` of `Number::toString`: `s * 10^(n - k)` reads back as the double
`m * 2^(e - 1074)` with the number `k` of digits of `s` as small as possible. -/
def shortest (m e : Nat) : Nat × Int :=
  let x := 4 * m * 2 ^ e
  let up := 2 * 2 ^ e
  let down := if m = 2 ^ 52 ∧ 0 < e then 2 ^ e else 2 * 2 ^ e
  shortestFrom x (x - down) (x + up) (m % 2 == 0) (decExp x) 17 1

/-- A run of `n` zero digits. -/
def zeros (n : Nat) : String := String.mk (List.replicate n '0')

/-- The text for digits `s` (given in decimal) and exponent `n`: plain notation when
`-6 < n ≤ 21`, exponent notation otherwise. -/
def formatDigits (digits : String) (n : Int) : String :=
  let k := digits.length
  if -5 ≤ n ∧ n ≤ 21 then
    if (k : Int) ≤ n then digits ++ zeros (n.toNat - k)
    else if 0 < n then
      String.mk (digits.data.take n.toNat) ++ "." ++ String.mk (digits.data.drop n.toNat)
    else "0." ++ zeros (-n).toNat ++ digits
  else
    let e := n - 1
    let sign := if e < 0 then "-" else "+"
    let mant := if k = 1 then digits
      else String.mk (digits.data.take 1) ++ "." ++ String.mk (digits.data.drop 1)
    mant ++ "e" ++ sign ++ Nat.repr e.natAbs

/-- The text of the positive double `m * 2^(e - 1074)`.  An integer below `2^53` is the only
integer in its rounding interval, so its shortest digits are its decimal expansion. -/
def positiveToString (m e : Nat) : String :=
  let v := m * 2 ^ e
  if v % 2 ^ 1074 = 0 ∧ v / 2 ^ 1074 < 2 ^ 53 then Nat.repr (v / 2 ^ 1074)
  else
    let r := shortest m e
    formatDigits (Nat.repr r.1) r.2

/-- ECMAScript `Number::toString(x, 10)`. -/
def numberToString : JSNumber → String
  | .nan => "NaN"
  | .inf neg => if neg then "-Infinity" else "Infinity"
  | .fin neg m e =>
    if m = 0 then "0"
    else (if neg then "-" else "") ++ positiveToString m e

/-- ECMAScript `ToString`, which a template literal applies to each substitution: the text, or
what the conversion throws. -/
def JSValue.toStr : JSValue → Except Thrown String
  | .undefined => .ok "undefined"
  | .null => .ok "null"
  | .bool b => .ok (if b then "true" else "false")
  | .num x => .ok (numberToString x)
  | .str s => .ok s
  | .bigint n => .ok (toString n)
  | .symbol _ => .error .symbolToString
  | .object (some text) => .ok text
  | .object none => .error .argumentConversion

/-- ECMAScript `ToBoolean`, which the conditional operator applies to its condition. -/
def JSValue.toBoolean : JSValue → Bool
  | .undefined => false
  | .null => false
  | .bool b => b
  | .num .nan => false
  | .num (.inf _) => true
  | .num (.fin _ m _) => m != 0
  | .str s => s != ""
  | .bigint n => n != 0
  | .symbol _ => true
  | .object _ => true

/-! ## The host -/

/-- What the module reads from Node.js at construction. -/
structure Host where
  /-- The result of `os.arch()`. -/
  arch : String
  /-- The module directory `__dirname`. -/
  dirname : String
  /-- The function `path.join`, applied to its list of segments. -/
  join : List String → String

/-- The observable effects on the host. -/
structure World where
  /-- Lines written by `console.log`, oldest first. -/
  console : List String
  /-- Command lines that `child_process.exec` accepted and handed to a shell, one process
  invocation each, oldest first. -/
  spawned : List String

/-- A thrown `Error`. -/
structure JSError where
  message : String
  deriving DecidableEq

/-- The error object `exec` reports for a child that failed to start, was killed or exited
with a non-zero code. -/
structure ExecError where
  message : String
  code : Option Int
  deriving DecidableEq

/-- The final state of a promise that the callback of `exec` settles. -/
inductive Settlement where
  | resolved (value : String)
  | rejected (reason : String)
  deriving DecidableEq

/-- A promise returned by `execute`.  When the executor threw, `thrown` is what it threw: the
promise is rejected with that value, no process was started and the callback is never called.
Otherwise `thrown` is `none` and the promise is settled by the callback of `exec`, called once
by the host with `(error, stdout, stderr)`; `error` is `null` (here `none`) or an error
object. -/
structure Promise where
  thrown : Option Thrown
  settle : Option ExecError → String → String → Settlement

/-! ## The class `Wmctrl` -/

/-- An instance of the class: its only field. -/
structure Wmctrl where
  wmctrlPath : String
  deriving DecidableEq

/-- What a method call that returns leaves behind: the returned promise, the instance and the
host. -/
structure Result where
  promise : Promise
  self : Wmctrl
  world : World

/-- The constructor: the switch on `os.arch()`, then the assignment of `wmctrlPath` and the
`console.log`. -/
def Wmctrl.constructor (h : Host) (w : World) : Except JSError (Wmctrl × World) := do
  let arch := h.arch
  let binaryName ←
    match arch with
    | "x64" => pure "wmctrl-amd64"
    | "arm64" => pure "wmctrl-arm64"
    | "arm" => pure "wmctrl-armhf"
    | "ia32" => pure "wmctrl-i386"
    | _ => throw (JSError.mk ("Unsupported architecture: " ++ arch))
  let wmctrlPath := h.join [h.dirname, "bin", binaryName]
  pure ({ wmctrlPath := wmctrlPath }, { w with console := w.console ++ [wmctrlPath] })

/-- The callback that `execute` gives to `exec`: it rejects with `stderr` when `error` is set
and resolves with `stdout` otherwise. -/
def execCallback (error : Option ExecError) (stdout stderr : String) : Settlement :=
  match error with
  | some _ => .rejected stderr
  | none => .resolved stdout

/-- The method `execute(args)`.  The executor of the promise builds the command line, the
quoted path, a space and `args`, and calls `exec` with it and the callback.  When the
conversion of `args` throws, or when `exec` refuses the command because it contains a null
byte, the executor throws: the promise is rejected with what was thrown and no process is
invoked.  Otherwise `exec` invokes one process with that command line. -/
def Wmctrl.execute (self : Wmctrl) (args : JSValue) (w : World) : Result :=
  match args.toStr with
  | .error thrown =>
    { promise := { thrown := some thrown, settle := execCallback }, self := self, world := w }
  | .ok text =>
    if nul ∈ ("\"" ++ self.wmctrlPath ++ "\" " ++ text).data then
      { promise := { thrown := some .nullByte, settle := execCallback }, self := self,
        world := w }
    else
      { promise := { thrown := none, settle := execCallback }, self := self,
        world := { w with spawned := w.spawned ++ ["\"" ++ self.wmctrlPath ++ "\" " ++ text] } }

def Wmctrl.showInfo (self : Wmctrl) (w : World) : Result :=
  self.execute (.str "-m") w

def Wmctrl.listWindows (self : Wmctrl) (w : World) : Result :=
  self.execute (.str "-l") w

def Wmctrl.listDesktops (self : Wmctrl) (w : World) : Result :=
  self.execute (.str "-d") w

def Wmctrl.switchDesktop (self : Wmctrl) (desktop : JSValue) (w : World) :
    Except Thrown Result := do
  let desktop ← desktop.toStr
  pure (self.execute (.str ("-s " ++ desktop)) w)

def Wmctrl.activateWindow (self : Wmctrl) (window : JSValue) (w : World) :
    Except Thrown Result := do
  let window ← window.toStr
  pure (self.execute (.str ("-a " ++ window)) w)

def Wmctrl.closeWindow (self : Wmctrl) (window : JSValue) (w : World) :
    Except Thrown Result := do
  let window ← window.toStr
  pure (self.execute (.str ("-c " ++ window)) w)

def Wmctrl.moveWindowToCurrentDesktop (self : Wmctrl) (window : JSValue) (w : World) :
    Except Thrown Result := do
  let window ← window.toStr
  pure (self.execute (.str ("-R " ++ window)) w)

def Wmctrl.moveWindowToDesktop (self : Wmctrl) (window desktop : JSValue) (w : World) :
    Except Thrown Result := do
  let window ← window.toStr
  let desktop ← desktop.toStr
  pure (self.execute (.str ("-r " ++ window ++ " -t " ++ desktop)) w)

def Wmctrl.resizeMoveWindow (self : Wmctrl) (window mvarg : JSValue) (w : World) :
    Except Thrown Result := do
  let window ← window.toStr
  let mvarg ← mvarg.toStr
  pure (self.execute (.str ("-r " ++ window ++ " -e " ++ mvarg)) w)

def Wmctrl.changeWindowState (self : Wmctrl) (window starg : JSValue) (w : World) :
    Except Thrown Result := do
  let window ← window.toStr
  let starg ← starg.toStr
  pure (self.execute (.str ("-r " ++ window ++ " -b " ++ starg)) w)

def Wmctrl.setWindowName (self : Wmctrl) (window name : JSValue) (w : World) :
    Except Thrown Result := do
  let window ← window.toStr
  let name ← name.toStr
  pure (self.execute (.str ("-r " ++ window ++ " -N " ++ name)) w)

def Wmctrl.setWindowIconName (self : Wmctrl) (window iconName : JSValue) (w : World) :
    Except Thrown Result := do
  let window ← window.toStr
  let iconName ← iconName.toStr
  pure (self.execute (.str ("-r " ++ window ++ " -I " ++ iconName)) w)

def Wmctrl.setWindowTitle (self : Wmctrl) (window name : JSValue) (w : World) :
    Except Thrown Result := do
  let window ← window.toStr
  let name ← name.toStr
  pure (self.execute (.str ("-r " ++ window ++ " -T " ++ name)) w)

def Wmctrl.showDesktop (self : Wmctrl) («on» : JSValue) (w : World) : Result :=
  self.execute (.str ("-k " ++ (if «on».toBoolean then "on" else "off"))) w

def Wmctrl.changeViewport (self : Wmctrl) (x y : JSValue) (w : World) :
    Except Thrown Result := do
  let x ← x.toStr
  let y ← y.toStr
  pure (self.execute (.str ("-o " ++ x ++ "," ++ y)) w)

def Wmctrl.changeNumberOfDesktops (self : Wmctrl) (num : JSValue) (w : World) :
    Except Thrown Result := do
  let num ← num.toStr
  pure (self.execute (.str ("-n " ++ num)) w)

def Wmctrl.changeDesktopGeometry (self : Wmctrl) (width height : JSValue) (w : World) :
    Except Thrown Result := do
  let width ← width.toStr
  let height ← height.toStr
  pure (self.execute (.str ("-g " ++ width ++ "," ++ height)) w)

/-! ## Sequences of calls -/

/-- One call of a method of the class, with its arguments. -/
inductive Call where
  | execute (args : JSValue)
  | showInfo
  | listWindows
  | listDesktops
  | switchDesktop (desktop : JSValue)
  | activateWindow (window : JSValue)
  | closeWindow (window : JSValue)
  | moveWindowToCurrentDesktop (window : JSValue)
  | moveWindowToDesktop (window desktop : JSValue)
  | resizeMoveWindow (window mvarg : JSValue)
  | changeWindowState (window starg : JSValue)
  | setWindowName (window name : JSValue)
  | setWindowIconName (window iconName : JSValue)
  | setWindowTitle (window name : JSValue)
  | showDesktop («on» : JSValue)
  | changeViewport (x y : JSValue)
  | changeNumberOfDesktops (num : JSValue)
  | changeDesktopGeometry (width height : JSValue)

/-- Perform one call on an instance: what it returns, or what it throws. -/
def Wmctrl.call (self : Wmctrl) (c : Call) (w : World) : Except Thrown Result :=
  match c with
  | .execute args => .ok (self.execute args w)
  | .showInfo => .ok (self.showInfo w)
  | .listWindows => .ok (self.listWindows w)
  | .listDesktops => .ok (self.listDesktops w)
  | .switchDesktop desktop => self.switchDesktop desktop w
  | .activateWindow window => self.activateWindow window w
  | .closeWindow window => self.closeWindow window w
  | .moveWindowToCurrentDesktop window => self.moveWindowToCurrentDesktop window w
  | .moveWindowToDesktop window desktop => self.moveWindowToDesktop window desktop w
  | .resizeMoveWindow window mvarg => self.resizeMoveWindow window mvarg w
  | .changeWindowState window starg => self.changeWindowState window starg w
  | .setWindowName window name => self.setWindowName window name w
  | .setWindowIconName window iconName => self.setWindowIconName window iconName w
  | .setWindowTitle window name => self.setWindowTitle window name w
  | .showDesktop v => .ok (self.showDesktop v w)
  | .changeViewport x y => self.changeViewport x y w
  | .changeNumberOfDesktops num => self.changeNumberOfDesktops num w
  | .changeDesktopGeometry width height => self.changeDesktopGeometry width height w

/-- The instance and the host after one call; a call that throws leaves both as they were. -/
def Wmctrl.after (self : Wmctrl) (c : Call) (w : World) : Wmctrl × World :=
  match self.call c w with
  | .ok r => (r.self, r.world)
  | .error _ => (self, w)

/-- Perform a sequence of calls one after the other, each on the instance and the host that the
previous one left. -/
def Wmctrl.run (self : Wmctrl) (w : World) : List Call → Wmctrl × World
  | [] => (self, w)
  | c :: cs => Wmctrl.run (self.after c w).1 (self.after c w).2 cs

/-- The pieces of a string between its spaces, as `split(' ')` gives them. -/
def splitSpaces (s : String) : List String :=
  (s.data.splitOn ' ').map String.mk

/-- The four architecture identifiers of the constructor's switch. -/
def supportedArchs : List String := ["x64", "arm64", "arm", "ia32"]

/-- An integer that a double holds exactly together with both its neighbours: `|z| < 2^53`
(`Number.isSafeInteger`). -/
def isSafeInteger (z : Int) : Prop := -(2 ^ 53) < z ∧ z < 2 ^ 53

instance (z : Int) : Decidable (isSafeInteger z) :=
  inferInstanceAs (Decidable (-(2 ^ 53) < z ∧ z < 2 ^ 53))

/-- A number that is `+0` or `-0`. -/
def JSNumber.isZero : JSNumber → Bool
  | .fin _ m _ => m == 0
  | _ => false

/-! ## Properties -/

theorem ilog2_pow_le (fuel : Nat) : ∀ n : Nat, 0 < n → 2 ^ ilog2 fuel n ≤ n := by
  induction fuel with
  | zero => intro n hn; simpa [ilog2] using hn
  | succ f ih =>
    intro n hn
    unfold ilog2
    split
    · simpa using hn
    · have h2 : 0 < n / 2 := Nat.div_pos (by omega) (by decide)
      have := ih (n / 2) h2
      rw [Nat.pow_succ]
      omega

theorem ilog2_le_of_lt (fuel n : Nat) (hn : 0 < n) (h : n < 2 ^ 53) : ilog2 fuel n ≤ 52 := by
  by_contra hc
  have h1 : 2 ^ 53 ≤ 2 ^ ilog2 fuel n := Nat.pow_le_pow_right (by decide) (by omega)
  have h2 := ilog2_pow_le fuel n hn
  omega

set_option exponentiation.threshold 2000 in
theorem positiveToString_safe (n b : Nat) (hb : b ≤ 52) (h : n < 2 ^ 53) :
    positiveToString (n * 2 ^ (52 - b)) (1022 + b) = Nat.repr n := by
  have hv : n * 2 ^ (52 - b) * 2 ^ (1022 + b) = n * 2 ^ 1074 := by
    rw [Nat.mul_assoc, ← Nat.pow_add]
    congr 2
    omega
  unfold positiveToString
  simp only [hv, Nat.mul_mod_left, Nat.mul_div_cancel n (Nat.two_pow_pos _)]
  rw [if_pos ⟨trivial, h⟩]

theorem numberToString_ofNat (neg : Bool) (n : Nat) (hn : 0 < n) (h : n < 2 ^ 53) :
    numberToString (JSNumber.ofNat neg n) = (if neg then "-" else "") ++ Nat.repr n := by
  have hb := ilog2_le_of_lt n n hn h
  have hm : n * 2 ^ (52 - ilog2 n n) ≠ 0 :=
    Nat.mul_ne_zero (by omega) (Nat.pos_iff_ne_zero.mp (Nat.pos_pow_of_pos _ (by decide)))
  unfold JSNumber.ofNat
  rw [if_neg (by omega)]
  simp only [hb, if_true]
  simp only [numberToString]
  rw [if_neg hm, positiveToString_safe n _ hb h]

theorem numberToString_ofInt (z : Int) (hlo : -(2 ^ 53) < z) (hhi : z < 2 ^ 53) :
    numberToString (JSNumber.ofInt z) = toString z := by
  cases z with
  | ofNat n =>
    unfold JSNumber.ofInt
    by_cases hn : n = 0
    · subst hn; rfl
    · have h : n < 2 ^ 53 := by
        simp only [Int.ofNat_eq_coe] at hhi
        exact_mod_cast hhi
      rw [numberToString_ofNat false n (by omega) h]
      rfl
  | negSucc n =>
    unfold JSNumber.ofInt
    have h : n + 1 < 2 ^ 53 := by
      rw [Int.negSucc_eq] at hlo
      have h3 : ((n + 1 : Nat) : Int) < ((2 ^ 53 : Nat) : Int) := by
        push_cast
        omega
      exact_mod_cast h3
    rw [numberToString_ofNat true (n + 1) (by omega) h]
    rfl

theorem toStr_ofInt (z : Int) (h : isSafeInteger z) :
    (JSValue.num (JSNumber.ofInt z)).toStr = .ok (toString z) := by
  show Except.ok (numberToString (JSNumber.ofInt z)) = .ok (toString z)
  rw [numberToString_ofInt z h.1 h.2]

theorem nul_mem_command (path text : String) :
    nul ∈ ("\"" ++ path ++ "\" " ++ text).data ↔ nul ∈ path.data ∨ nul ∈ text.data := by
  simp [String.data_append, nul]

theorem execute_self (self : Wmctrl) (a : JSValue) (w : World) :
    (self.execute a w).self = self := by
  unfold Wmctrl.execute
  split
  · rfl
  · split <;> rfl

theorem execute_console (self : Wmctrl) (a : JSValue) (w : World) :
    (self.execute a w).world.console = w.console := by
  unfold Wmctrl.execute
  split
  · rfl
  · split <;> rfl

theorem execute_issued (self : Wmctrl) (a : JSValue) :
    ∃ issued : List String, issued.length ≤ 1 ∧
      (∀ w : World, (self.execute a w).world.spawned = w.spawned ++ issued) ∧
      (∀ w : World, (self.execute a w).promise.thrown = none → issued.length = 1) := by
  unfold Wmctrl.execute
  cases a.toStr with
  | error t => exact ⟨[], by simp, fun w => by simp, fun w h => by simp at h⟩
  | ok text =>
    by_cases hn : nul ∈ ("\"" ++ self.wmctrlPath ++ "\" " ++ text).data
    · exact ⟨[], by simp, fun w => by simp only [if_pos hn, List.append_nil],
        fun w h => by simp only [if_pos hn] at h; cases h⟩
    · exact ⟨["\"" ++ self.wmctrlPath ++ "\" " ++ text], by simp,
        fun w => by simp only [if_neg hn], fun w _ => rfl⟩

theorem call_shape (self : Wmctrl) (c : Call) :
    (∃ t, ∀ w, self.call c w = .error t) ∨
      (∃ a, ∀ w, self.call c w = .ok (self.execute a w)) := by
  cases c <;>
    simp only [Wmctrl.call, Wmctrl.switchDesktop, Wmctrl.activateWindow, Wmctrl.closeWindow,
      Wmctrl.moveWindowToCurrentDesktop, Wmctrl.moveWindowToDesktop, Wmctrl.resizeMoveWindow,
      Wmctrl.changeWindowState, Wmctrl.setWindowName, Wmctrl.setWindowIconName,
      Wmctrl.setWindowTitle, Wmctrl.changeViewport, Wmctrl.changeNumberOfDesktops,
      Wmctrl.changeDesktopGeometry]
  all_goals first
    | exact Or.inr ⟨_, fun _ => rfl⟩
    | (rename_i v
       cases v.toStr
       · exact Or.inl ⟨_, fun _ => rfl⟩
       · exact Or.inr ⟨_, fun _ => rfl⟩)
    | (rename_i u v
       cases u.toStr
       · exact Or.inl ⟨_, fun _ => rfl⟩
       · cases v.toStr
         · exact Or.inl ⟨_, fun _ => rfl⟩
         · exact Or.inr ⟨_, fun _ => rfl⟩)

theorem after_self (self : Wmctrl) (c : Call) (w : World) : (self.after c w).1 = self := by
  unfold Wmctrl.after
  rcases call_shape self c with ⟨t, ht⟩ | ⟨a, ha⟩
  · rw [ht w]
  · rw [ha w]
    exact execute_self self a w

theorem after_console (self : Wmctrl) (c : Call) (w : World) :
    (self.after c w).2.console = w.console := by
  unfold Wmctrl.after
  rcases call_shape self c with ⟨t, ht⟩ | ⟨a, ha⟩
  · rw [ht w]
  · rw [ha w]
    exact execute_console self a w

theorem after_issued (self : Wmctrl) (c : Call) :
    ∃ issued : List String, issued.length ≤ 1 ∧
      (∀ w : World, (self.after c w).2.spawned = w.spawned ++ issued) ∧
      (∀ (w : World) (r : Result), self.call c w = .ok r → r.promise.thrown = none →
        issued.length = 1) := by
  rcases call_shape self c with ⟨t, ht⟩ | ⟨a, ha⟩
  · refine ⟨[], by simp, fun w => ?_, fun w r hr => ?_⟩
    · unfold Wmctrl.after
      rw [ht w]
      simp
    · rw [ht w] at hr
      cases hr
  · obtain ⟨issued, hlen, hsp, hone⟩ := execute_issued self a
    refine ⟨issued, hlen, fun w => ?_, fun w r hr hthrown => ?_⟩
    · unfold Wmctrl.after
      rw [ha w]
      exact hsp w
    · rw [ha w] at hr
      cases hr
      exact hone w hthrown

theorem run_self (self : Wmctrl) (cs : List Call) :
    ∀ w : World, (self.run w cs).1 = self := by
  induction cs with
  | nil => intro w; rfl
  | cons c cs ih =>
    intro w
    show (Wmctrl.run (self.after c w).1 (self.after c w).2 cs).1 = self
    rw [after_self]
    exact ih _

theorem execute_settle (self : Wmctrl) (a : JSValue) (w : World) :
    (self.execute a w).promise.settle = execCallback := by
  unfold Wmctrl.execute
  split
  · rfl
  · split <;> rfl

/-! ### Construction -/

/-- C1: for each of the four architecture ids of the table, construction succeeds, and the
stored `wmctrlPath` is `path.join(__dirname, 'bin', name)` with `name` the binary of that id:
`x64` gives `wmctrl-amd64`, `arm64` gives `wmctrl-arm64`, `arm` gives `wmctrl-armhf`, `ia32`
gives `wmctrl-i386`.  The only other effect is the path printed by `console.log`. -/
theorem constructor_supported (dirname : String) (join : List String → String) (w : World) :
    Wmctrl.constructor (Host.mk "x64" dirname join) w =
        .ok (Wmctrl.mk (join [dirname, "bin", "wmctrl-amd64"]),
          World.mk (w.console ++ [join [dirname, "bin", "wmctrl-amd64"]]) w.spawned) ∧
      Wmctrl.constructor (Host.mk "arm64" dirname join) w =
        .ok (Wmctrl.mk (join [dirname, "bin", "wmctrl-arm64"]),
          World.mk (w.console ++ [join [dirname, "bin", "wmctrl-arm64"]]) w.spawned) ∧
      Wmctrl.constructor (Host.mk "arm" dirname join) w =
        .ok (Wmctrl.mk (join [dirname, "bin", "wmctrl-armhf"]),
          World.mk (w.console ++ [join [dirname, "bin", "wmctrl-armhf"]]) w.spawned) ∧
      Wmctrl.constructor (Host.mk "ia32" dirname join) w =
        .ok (Wmctrl.mk (join [dirname, "bin", "wmctrl-i386"]),
          World.mk (w.console ++ [join [dirname, "bin", "wmctrl-i386"]]) w.spawned) :=
  ⟨rfl, rfl, rfl, rfl⟩

/-- C2: for an architecture id outside the four of the table the constructor throws an
`Error` whose message is `Unsupported architecture: ` followed by the id, so no instance is
produced; and the constructor throws for no other id. -/
theorem constructor_unsupported (h : Host) (w : World) :
    (h.arch ∉ supportedArchs →
        Wmctrl.constructor h w = .error (JSError.mk ("Unsupported architecture: " ++ h.arch))) ∧
      ((∃ err, Wmctrl.constructor h w = .error err) → h.arch ∉ supportedArchs) := by
  obtain ⟨arch, dirname, join⟩ := h
  simp only [supportedArchs, List.mem_cons, List.mem_singleton, List.not_mem_nil, or_false,
    not_or]
  constructor
  · rintro ⟨h1, h2, h3, h4⟩
    unfold Wmctrl.constructor
    simp only []
    rfl
  · rintro ⟨err, herr⟩
    refine ⟨?_, ?_, ?_, ?_⟩ <;> intro heq <;> subst heq <;> cases herr

/-- Witness of C2 at the architecture id `mips`. -/
theorem constructor_unsupported_witness :
    Wmctrl.constructor (Host.mk "mips" "/srv/app/lib" (String.intercalate "/")) (World.mk [] []) =
      .error (JSError.mk "Unsupported architecture: mips") :=
  (constructor_unsupported (Host.mk "mips" "/srv/app/lib" (String.intercalate "/"))
    (World.mk [] [])).1 (by decide)

/-! ### `execute` -/

/-- C3 as stated fails for an argument string that contains a null byte: `exec` refuses the
command of `execute('-l\u0000')` by throwing inside the executor, so no process is invoked and
the promise is rejected with that `TypeError`. -/
theorem execute_null_byte :
    (Wmctrl.execute (Wmctrl.mk "/srv/app/lib/bin/wmctrl-amd64")
        (.str ("-l" ++ String.singleton nul)) (World.mk [] [])).world.spawned = [] ∧
      (Wmctrl.execute (Wmctrl.mk "/srv/app/lib/bin/wmctrl-amd64")
        (.str ("-l" ++ String.singleton nul)) (World.mk [] [])).promise.thrown =
        some Thrown.nullByte := by
  decide

/-- C3, amended: for every argument string `args`, when neither the instance's path nor `args`
contains a null byte, `execute(args)` issues exactly one process invocation, and its command
line is a double quote, the path, a double quote, one space, then `args` unchanged; when one
of them contains a null byte, `exec` refuses the command and no process is invoked.  In both cases
nothing is printed and the instance is as it was. -/
theorem execute_command (self : Wmctrl) (args : String) (w : World) :
    (nul ∉ self.wmctrlPath.data → nul ∉ args.data →
        (self.execute (.str args) w).world.spawned =
            w.spawned ++ ["\"" ++ self.wmctrlPath ++ "\" " ++ args] ∧
          (self.execute (.str args) w).world.spawned.length = w.spawned.length + 1 ∧
          (self.execute (.str args) w).promise.thrown = none) ∧
      (nul ∈ self.wmctrlPath.data ∨ nul ∈ args.data →
        (self.execute (.str args) w).world.spawned = w.spawned ∧
          (self.execute (.str args) w).promise.thrown = some Thrown.nullByte) ∧
      (self.execute (.str args) w).world.console = w.console ∧
      (self.execute (.str args) w).self = self := by
  have key := nul_mem_command self.wmctrlPath args
  refine ⟨fun hp ha => ?_, fun h => ?_, execute_console _ _ _, execute_self _ _ _⟩
  · have hn : nul ∉ ("\"" ++ self.wmctrlPath ++ "\" " ++ args).data :=
      fun hc => (key.mp hc).elim hp ha
    simp only [Wmctrl.execute, JSValue.toStr, if_neg hn]
    simp
  · have hn : nul ∈ ("\"" ++ self.wmctrlPath ++ "\" " ++ args).data := key.mpr h
    simp only [Wmctrl.execute, JSValue.toStr, if_pos hn]
    exact ⟨trivial, trivial⟩

/-- Witness of C3: `execute('-l')` on an instance for `x64`. -/
theorem execute_command_witness :
    (Wmctrl.execute (Wmctrl.mk "/srv/app/lib/bin/wmctrl-amd64") (.str "-l")
        (World.mk [] [])).world.spawned = ["\"/srv/app/lib/bin/wmctrl-amd64\" -l"] :=
  ((execute_command (Wmctrl.mk "/srv/app/lib/bin/wmctrl-amd64") "-l" (World.mk [] [])).1
    (by decide) (by decide)).1

/-- C4: whatever the child process reports, the promise of `execute` is resolved exactly when
`error` is `null`, and then with `stdout` as it is; otherwise it is rejected with the text
`stderr` as it is. -/
theorem execute_settlement (self : Wmctrl) (args : JSValue) (w : World)
    (error : Option ExecError) (stdout stderr : String) :
    ((∃ value, (self.execute args w).promise.settle error stdout stderr = .resolved value) ↔
        error = none) ∧
      (error = none →
        (self.execute args w).promise.settle error stdout stderr = .resolved stdout) ∧
      (error ≠ none →
        (self.execute args w).promise.settle error stdout stderr = .rejected stderr) := by
  rw [execute_settle]
  cases error with
  | none => simp [execCallback]
  | some err => simp [execCallback]

/-- Witness of C4: a child that exits with code 1 and a child that succeeds. -/
theorem execute_settlement_witness :
    (Wmctrl.execute (Wmctrl.mk "/srv/app/lib/bin/wmctrl-amd64") (.str "-l")
          (World.mk [] [])).promise.settle
        (some (ExecError.mk "Command failed" (some 1))) "" "Cannot open display.\n" =
        .rejected "Cannot open display.\n" ∧
      (Wmctrl.execute (Wmctrl.mk "/srv/app/lib/bin/wmctrl-amd64") (.str "-l")
          (World.mk [] [])).promise.settle none "0x01 0 host term\n" "" =
        .resolved "0x01 0 host term\n" :=
  ⟨(execute_settlement (Wmctrl.mk "/srv/app/lib/bin/wmctrl-amd64") (.str "-l") (World.mk [] [])
      (some (ExecError.mk "Command failed" (some 1))) "" "Cannot open display.\n").2.2
      (by decide),
    (execute_settlement (Wmctrl.mk "/srv/app/lib/bin/wmctrl-amd64") (.str "-l") (World.mk [] [])
      none "0x01 0 host term\n" "").2.1 rfl⟩

/-! ### Convenience methods -/

set_option maxRecDepth 100000 in
set_option exponentiation.threshold 5000 in
/-- C5 as stated fails for large integers: the integer `10^21` is a JavaScript number, and
`switchDesktop(1e21)` passes `-s 1e+21` to `execute`, which runs the command with `-s 1e+21`,
not with the integer written in decimal, `-s 1000000000000000000000`. -/
theorem switchDesktop_large_integer :
    Wmctrl.switchDesktop (Wmctrl.mk "/srv/app/lib/bin/wmctrl-amd64")
        (.num (JSNumber.ofInt 1000000000000000000000)) (World.mk [] []) =
        .ok (Wmctrl.execute (Wmctrl.mk "/srv/app/lib/bin/wmctrl-amd64") (.str "-s 1e+21")
          (World.mk [] [])) ∧
      (Wmctrl.execute (Wmctrl.mk "/srv/app/lib/bin/wmctrl-amd64") (.str "-s 1e+21")
        (World.mk [] [])).world.spawned = ["\"/srv/app/lib/bin/wmctrl-amd64\" -s 1e+21"] ∧
      (Wmctrl.execute (Wmctrl.mk "/srv/app/lib/bin/wmctrl-amd64") (.str "-s 1e+21")
        (World.mk [] [])).world.spawned ≠
        (Wmctrl.execute (Wmctrl.mk "/srv/app/lib/bin/wmctrl-amd64")
          (.str ("-s " ++ toString (1000000000000000000000 : Int))) (World.mk [] [])).world.spawned := by
  have h : numberToString (JSNumber.ofInt 1000000000000000000000) = "1e+21" := by decide
  refine ⟨?_, by decide, by decide⟩
  simp only [Wmctrl.switchDesktop, JSValue.toStr, h]
  rfl

/-- C5, amended: each of these methods passes its template to `execute` and returns what
`execute` returns: `-m`, `-l`, `-d` for the three methods without argument, `-a w`, `-c w`,
`-R w` for every string `w`, and `-s n`, `-n n`, `-o x,y`, `-g w,h` with the integers written
in decimal, for all integers of magnitude below `2^53`. -/
theorem convenience_templates (self : Wmctrl) (w : World) (win : String)
    (n x y width height : Int) (hn : isSafeInteger n) (hx : isSafeInteger x)
    (hy : isSafeInteger y) (hw : isSafeInteger width) (hh : isSafeInteger height) :
    self.showInfo w = self.execute (.str "-m") w ∧
      self.listWindows w = self.execute (.str "-l") w ∧
      self.listDesktops w = self.execute (.str "-d") w ∧
      self.switchDesktop (.num (JSNumber.ofInt n)) w =
        .ok (self.execute (.str ("-s " ++ toString n)) w) ∧
      self.activateWindow (.str win) w = .ok (self.execute (.str ("-a " ++ win)) w) ∧
      self.closeWindow (.str win) w = .ok (self.execute (.str ("-c " ++ win)) w) ∧
      self.moveWindowToCurrentDesktop (.str win) w =
        .ok (self.execute (.str ("-R " ++ win)) w) ∧
      self.changeNumberOfDesktops (.num (JSNumber.ofInt n)) w =
        .ok (self.execute (.str ("-n " ++ toString n)) w) ∧
      self.changeViewport (.num (JSNumber.ofInt x)) (.num (JSNumber.ofInt y)) w =
        .ok (self.execute (.str ("-o " ++ toString x ++ "," ++ toString y)) w) ∧
      self.changeDesktopGeometry (.num (JSNumber.ofInt width)) (.num (JSNumber.ofInt height)) w =
        .ok (self.execute (.str ("-g " ++ toString width ++ "," ++ toString height)) w) := by
  have en := toStr_ofInt n hn
  have ex := toStr_ofInt x hx
  have ey := toStr_ofInt y hy
  have ew := toStr_ofInt width hw
  have eh := toStr_ofInt height hh
  refine ⟨rfl, rfl, rfl, ?_, rfl, rfl, rfl, ?_, ?_, ?_⟩
  · simp only [Wmctrl.switchDesktop, en]
    rfl
  · simp only [Wmctrl.changeNumberOfDesktops, en]
    rfl
  · simp only [Wmctrl.changeViewport, ex, ey]
    rfl
  · simp only [Wmctrl.changeDesktopGeometry, ew, eh]
    rfl

/-- Witness of C5: `switchDesktop(3)` passes `-s 3` and `changeViewport(100, 200)` passes
`-o 100,200`. -/
theorem convenience_templates_witness :
    Wmctrl.switchDesktop (Wmctrl.mk "/srv/app/lib/bin/wmctrl-amd64") (.num (JSNumber.ofInt 3))
        (World.mk [] []) =
        .ok (Wmctrl.execute (Wmctrl.mk "/srv/app/lib/bin/wmctrl-amd64") (.str "-s 3")
          (World.mk [] [])) ∧
      Wmctrl.changeViewport (Wmctrl.mk "/srv/app/lib/bin/wmctrl-amd64")
        (.num (JSNumber.ofInt 100)) (.num (JSNumber.ofInt 200)) (World.mk [] []) =
        .ok (Wmctrl.execute (Wmctrl.mk "/srv/app/lib/bin/wmctrl-amd64") (.str "-o 100,200")
          (World.mk [] [])) :=
  have h := convenience_templates (Wmctrl.mk "/srv/app/lib/bin/wmctrl-amd64") (World.mk [] [])
    "0x01" 3 100 200 1920 1080 (by decide) (by decide) (by decide) (by decide) (by decide)
  ⟨h.2.2.2.1, h.2.2.2.2.2.2.2.2.1⟩

/-- C6 as stated fails for a second argument that is a Symbol: the template literal of
`setWindowTitle('0x456', Symbol('title'))` throws a `TypeError`, so the method throws and
passes nothing to `execute`. -/
theorem setWindowTitle_symbol :
    Wmctrl.setWindowTitle (Wmctrl.mk "/srv/app/lib/bin/wmctrl-amd64") (.str "0x456")
        (.symbol (some "title")) (World.mk [] []) = .error Thrown.symbolToString ∧
      (Wmctrl.after (Wmctrl.mk "/srv/app/lib/bin/wmctrl-amd64")
        (.setWindowTitle (.str "0x456") (.symbol (some "title"))) (World.mk [] [])).2.spawned =
        [] :=
  ⟨rfl, rfl⟩

/-- C6, amended: for every window string `w` and every second argument `v` that converts to a
string, which is every value other than a Symbol and an object whose conversion throws, the
six window-targeting methods pass `-r w flag s` to `execute`, with the flag `-t`, `-e`, `-b`,
`-N`, `-I`, `-T` of the method and `s` the text `v` converts to, nothing added or escaped: a
string is passed as it is, spaces included, an integer of magnitude below `2^53` and a BigInt
in decimal, a boolean, `null` and `undefined` by name.  When the conversion of `v` throws, the
method throws the same.  So `resizeMoveWindow('0x123', '0,10,10,200,200')` passes
`-r 0x123 -e 0,10,10,200,200`, `setWindowTitle('0x456', 'My Window')` passes
`-r 0x456 -T My Window` and `moveWindowToDesktop('0x1', 2)` passes `-r 0x1 -t 2`. -/
theorem window_templates (self : Wmctrl) (w : World) (win : String) (v : JSValue)
    (s text : String) (t : Thrown) (n : Int) :
    (v.toStr = .ok s →
        self.moveWindowToDesktop (.str win) v w =
            .ok (self.execute (.str ("-r " ++ win ++ " " ++ "-t" ++ " " ++ s)) w) ∧
          self.resizeMoveWindow (.str win) v w =
            .ok (self.execute (.str ("-r " ++ win ++ " " ++ "-e" ++ " " ++ s)) w) ∧
          self.changeWindowState (.str win) v w =
            .ok (self.execute (.str ("-r " ++ win ++ " " ++ "-b" ++ " " ++ s)) w) ∧
          self.setWindowName (.str win) v w =
            .ok (self.execute (.str ("-r " ++ win ++ " " ++ "-N" ++ " " ++ s)) w) ∧
          self.setWindowIconName (.str win) v w =
            .ok (self.execute (.str ("-r " ++ win ++ " " ++ "-I" ++ " " ++ s)) w) ∧
          self.setWindowTitle (.str win) v w =
            .ok (self.execute (.str ("-r " ++ win ++ " " ++ "-T" ++ " " ++ s)) w)) ∧
      (v.toStr = .error t →
        self.moveWindowToDesktop (.str win) v w = .error t ∧
          self.resizeMoveWindow (.str win) v w = .error t ∧
          self.changeWindowState (.str win) v w = .error t ∧
          self.setWindowName (.str win) v w = .error t ∧
          self.setWindowIconName (.str win) v w = .error t ∧
          self.setWindowTitle (.str win) v w = .error t) ∧
      ((∀ d, v ≠ .symbol d) → v ≠ .object none → ∃ r, v.toStr = .ok r) ∧
      (JSValue.str text).toStr = .ok text ∧
      (isSafeInteger n → (JSValue.num (JSNumber.ofInt n)).toStr = .ok (toString n)) ∧
      (JSValue.bigint n).toStr = .ok (toString n) ∧
      (JSValue.bool true).toStr = .ok "true" ∧
      (JSValue.bool false).toStr = .ok "false" ∧
      JSValue.null.toStr = .ok "null" ∧
      JSValue.undefined.toStr = .ok "undefined" ∧
      (JSValue.num .nan).toStr = .ok "NaN" ∧
      (JSValue.object (some text)).toStr = .ok text ∧
      self.moveWindowToDesktop (.str win) (.str text) w =
        .ok (self.execute (.str ("-r " ++ win ++ " " ++ "-t" ++ " " ++ text)) w) ∧
      self.resizeMoveWindow (.str win) (.str text) w =
        .ok (self.execute (.str ("-r " ++ win ++ " " ++ "-e" ++ " " ++ text)) w) ∧
      self.changeWindowState (.str win) (.str text) w =
        .ok (self.execute (.str ("-r " ++ win ++ " " ++ "-b" ++ " " ++ text)) w) ∧
      self.setWindowName (.str win) (.str text) w =
        .ok (self.execute (.str ("-r " ++ win ++ " " ++ "-N" ++ " " ++ text)) w) ∧
      self.setWindowIconName (.str win) (.str text) w =
        .ok (self.execute (.str ("-r " ++ win ++ " " ++ "-I" ++ " " ++ text)) w) ∧
      self.setWindowTitle (.str win) (.str text) w =
        .ok (self.execute (.str ("-r " ++ win ++ " " ++ "-T" ++ " " ++ text)) w) ∧
      (isSafeInteger n →
        self.moveWindowToDesktop (.str win) (.num (JSNumber.ofInt n)) w =
          .ok (self.execute (.str ("-r " ++ win ++ " " ++ "-t" ++ " " ++ toString n)) w)) ∧
      self.resizeMoveWindow (.str "0x123") (.str "0,10,10,200,200") w =
        .ok (self.execute (.str "-r 0x123 -e 0,10,10,200,200") w) ∧
      self.setWindowTitle (.str "0x456") (.str "My Window") w =
        .ok (self.execute (.str "-r 0x456 -T My Window") w) ∧
      self.moveWindowToDesktop (.str "0x1") (.num (JSNumber.ofInt 2)) w =
        .ok (self.execute (.str "-r 0x1 -t 2") w) := by
  have pass : ∀ (wn flag r : String),
      (Except.ok (self.execute (.str ("-r " ++ wn ++ (" " ++ flag ++ " ") ++ r)) w) :
          Except Thrown Result) =
        .ok (self.execute (.str ("-r " ++ wn ++ " " ++ flag ++ " " ++ r)) w) := by
    intro wn flag r
    simp only [String.append_assoc]
  have general : ∀ (wn : String) (u : JSValue) (r : String), u.toStr = .ok r →
      self.moveWindowToDesktop (.str wn) u w =
          .ok (self.execute (.str ("-r " ++ wn ++ " " ++ "-t" ++ " " ++ r)) w) ∧
        self.resizeMoveWindow (.str wn) u w =
          .ok (self.execute (.str ("-r " ++ wn ++ " " ++ "-e" ++ " " ++ r)) w) ∧
        self.changeWindowState (.str wn) u w =
          .ok (self.execute (.str ("-r " ++ wn ++ " " ++ "-b" ++ " " ++ r)) w) ∧
        self.setWindowName (.str wn) u w =
          .ok (self.execute (.str ("-r " ++ wn ++ " " ++ "-N" ++ " " ++ r)) w) ∧
        self.setWindowIconName (.str wn) u w =
          .ok (self.execute (.str ("-r " ++ wn ++ " " ++ "-I" ++ " " ++ r)) w) ∧
        self.setWindowTitle (.str wn) u w =
          .ok (self.execute (.str ("-r " ++ wn ++ " " ++ "-T" ++ " " ++ r)) w) := by
    intro wn u r hu
    refine ⟨?_, ?_, ?_, ?_, ?_, ?_⟩
    · simp only [Wmctrl.moveWindowToDesktop, hu]
      exact pass wn "-t" r
    · simp only [Wmctrl.resizeMoveWindow, hu]
      exact pass wn "-e" r
    · simp only [Wmctrl.changeWindowState, hu]
      exact pass wn "-b" r
    · simp only [Wmctrl.setWindowName, hu]
      exact pass wn "-N" r
    · simp only [Wmctrl.setWindowIconName, hu]
      exact pass wn "-I" r
    · simp only [Wmctrl.setWindowTitle, hu]
      exact pass wn "-T" r
  have strs := general win (.str text) text rfl
  have two : (JSValue.num (JSNumber.ofInt 2)).toStr = .ok "2" := toStr_ofInt 2 (by decide)
  refine ⟨general win v s, ?_, ?_, rfl, toStr_ofInt n, rfl, rfl, rfl, rfl, rfl, rfl, rfl,
    strs.1, strs.2.1, strs.2.2.1, strs.2.2.2.1, strs.2.2.2.2.1, strs.2.2.2.2.2,
    fun hn => (general win _ _ (toStr_ofInt n hn)).1, rfl, rfl, (general "0x1" _ _ two).1⟩
  · intro hv
    refine ⟨?_, ?_, ?_, ?_, ?_, ?_⟩
    · simp only [Wmctrl.moveWindowToDesktop, hv]
      rfl
    · simp only [Wmctrl.resizeMoveWindow, hv]
      rfl
    · simp only [Wmctrl.changeWindowState, hv]
      rfl
    · simp only [Wmctrl.setWindowName, hv]
      rfl
    · simp only [Wmctrl.setWindowIconName, hv]
      rfl
    · simp only [Wmctrl.setWindowTitle, hv]
      rfl
  · intro hsym hobj
    cases v with
    | symbol d => exact absurd rfl (hsym d)
    | object o =>
      cases o with
      | none => exact absurd rfl hobj
      | some r => exact ⟨r, rfl⟩
    | undefined => exact ⟨_, rfl⟩
    | null => exact ⟨_, rfl⟩
    | bool b => exact ⟨_, rfl⟩
    | num x => exact ⟨_, rfl⟩
    | str r => exact ⟨_, rfl⟩
    | bigint z => exact ⟨_, rfl⟩

/-- Witness of C6: a name with a space, the desktop number 7 and a Symbol. -/
theorem window_templates_witness :
    Wmctrl.setWindowName (Wmctrl.mk "/srv/app/lib/bin/wmctrl-amd64") (.str "0x01")
        (.str "My Window") (World.mk [] []) =
        .ok (Wmctrl.execute (Wmctrl.mk "/srv/app/lib/bin/wmctrl-amd64")
          (.str "-r 0x01 -N My Window") (World.mk [] [])) ∧
      Wmctrl.moveWindowToDesktop (Wmctrl.mk "/srv/app/lib/bin/wmctrl-amd64") (.str "0x01")
        (.num (JSNumber.ofInt 7)) (World.mk [] []) =
        .ok (Wmctrl.execute (Wmctrl.mk "/srv/app/lib/bin/wmctrl-amd64")
          (.str "-r 0x01 -t 7") (World.mk [] [])) ∧
      Wmctrl.changeWindowState (Wmctrl.mk "/srv/app/lib/bin/wmctrl-amd64") (.str "0x01")
        (.symbol none) (World.mk [] []) = .error Thrown.symbolToString :=
  ⟨((window_templates (Wmctrl.mk "/srv/app/lib/bin/wmctrl-amd64") (World.mk [] []) "0x01"
      (.str "My Window") "My Window" "" Thrown.symbolToString 7).1 rfl).2.2.2.1,
    (window_templates (Wmctrl.mk "/srv/app/lib/bin/wmctrl-amd64") (World.mk [] []) "0x01"
      (.str "My Window") "My Window" "" Thrown.symbolToString 7).2.2.2.2.2.2.2.2.2.2.2.2.2.2.2.2.2.2.1
      (by decide),
    ((window_templates (Wmctrl.mk "/srv/app/lib/bin/wmctrl-amd64") (World.mk [] []) "0x01"
      (.symbol none) "" "" Thrown.symbolToString 7).2.1 rfl).2.2.1⟩

/-- C7: `showDesktop(true)` passes `-k on`, `showDesktop(false)` passes `-k off`, and whatever
the argument, `showDesktop` passes one of these two strings. -/
theorem showDesktop_boolean (self : Wmctrl) (w : World) (v : JSValue) :
    self.showDesktop (.bool true) w = self.execute (.str "-k on") w ∧
      self.showDesktop (.bool false) w = self.execute (.str "-k off") w ∧
      (self.showDesktop v w = self.execute (.str "-k on") w ∨
        self.showDesktop v w = self.execute (.str "-k off") w) := by
  refine ⟨rfl, rfl, ?_⟩
  unfold Wmctrl.showDesktop
  cases v.toBoolean
  · exact Or.inr rfl
  · exact Or.inl rfl

/-! ### Statelessness -/

/-- C8: no call changes the instance, and what a call issues is a function of the instance's
path and of the call alone: whatever the prior calls on the instance and whatever the host,
the instance is afterwards the one constructed, and the call adds the same command lines to
what was spawned and prints nothing.  These are at most one command line, and exactly one
when the call returns a promise whose executor did not throw. -/
theorem calls_stateless (self : Wmctrl) (c : Call) :
    ∃ issued : List String, issued.length ≤ 1 ∧
      ∀ (w : World) (prior : List Call),
        (self.run w prior).1 = self ∧
          ((self.run w prior).1.after c (self.run w prior).2).1 = self ∧
          ((self.run w prior).1.after c (self.run w prior).2).2.spawned =
            (self.run w prior).2.spawned ++ issued ∧
          ((self.run w prior).1.after c (self.run w prior).2).2.console =
            (self.run w prior).2.console ∧
          (∀ r : Result, (self.run w prior).1.call c (self.run w prior).2 = .ok r →
            r.promise.thrown = none → issued.length = 1) := by
  obtain ⟨issued, hlen, hsp, hone⟩ := after_issued self c
  refine ⟨issued, hlen, fun w prior => ?_⟩
  rw [run_self self prior w]
  exact ⟨rfl, after_self _ _ _, hsp _, after_console _ _ _, hone _⟩

/-! ### Unescaped interpolation -/

/-- C9: the argument string does not determine the arguments, and an argument can carry
further options: `setWindowTitle('0x1 -T a', 'b')` and `setWindowTitle('0x1', 'a -T b')` both
pass `-r 0x1 -T a -T b`, and `setWindowName('0x1', 'a b')` passes `-r 0x1 -N a b`, which
splits on spaces into five pieces. -/
theorem interpolation_not_injective (self : Wmctrl) (w : World) :
    (JSValue.str "0x1 -T a", JSValue.str "b") ≠ (JSValue.str "0x1", JSValue.str "a -T b") ∧
      self.setWindowTitle (.str "0x1 -T a") (.str "b") w =
        .ok (self.execute (.str "-r 0x1 -T a -T b") w) ∧
      self.setWindowTitle (.str "0x1") (.str "a -T b") w =
        .ok (self.execute (.str "-r 0x1 -T a -T b") w) ∧
      self.setWindowName (.str "0x1") (.str "a b") w =
        .ok (self.execute (.str "-r 0x1 -N a b") w) ∧
      splitSpaces "-r 0x1 -N a b" = ["-r", "0x1", "-N", "a", "b"] ∧
      4 < (splitSpaces "-r 0x1 -N a b").length := by
  refine ⟨by decide, rfl, rfl, rfl, by decide, by decide⟩

/-! ### Truthiness -/

/-- C10 as stated fails for `NaN`: it is a number other than `+0` and `-0`, and
`showDesktop(NaN)` runs the command with `-k off`. -/
theorem showDesktop_nan :
    JSNumber.nan ≠ JSNumber.fin false 0 0 ∧ JSNumber.nan ≠ JSNumber.fin true 0 0 ∧
      (Wmctrl.showDesktop (Wmctrl.mk "/srv/app/lib/bin/wmctrl-amd64") (.num .nan)
        (World.mk [] [])).world.spawned = ["\"/srv/app/lib/bin/wmctrl-amd64\" -k off"] := by
  decide

/-- C10, amended: `showDesktop` decides by truthiness, not by the text of its argument: every
truthy argument passes `-k on`, among them the strings `off` and `false` and every number other
than `0`, `-0` and `NaN`; every falsy argument passes `-k off`: `false`, `0`, `-0`, `NaN`, the
empty string, `null` and `undefined`. -/
theorem showDesktop_truthiness (self : Wmctrl) (w : World) (v : JSValue) (x : JSNumber) :
    (v.toBoolean = true → self.showDesktop v w = self.execute (.str "-k on") w) ∧
      (v.toBoolean = false → self.showDesktop v w = self.execute (.str "-k off") w) ∧
      self.showDesktop (.str "off") w = self.execute (.str "-k on") w ∧
      self.showDesktop (.str "false") w = self.execute (.str "-k on") w ∧
      (x ≠ .nan → x.isZero = false →
        self.showDesktop (.num x) w = self.execute (.str "-k on") w) ∧
      self.showDesktop (.bool false) w = self.execute (.str "-k off") w ∧
      self.showDesktop (.num (JSNumber.ofInt 0)) w = self.execute (.str "-k off") w ∧
      self.showDesktop (.num (.fin true 0 0)) w = self.execute (.str "-k off") w ∧
      self.showDesktop (.num .nan) w = self.execute (.str "-k off") w ∧
      self.showDesktop (.str "") w = self.execute (.str "-k off") w ∧
      self.showDesktop .null w = self.execute (.str "-k off") w ∧
      self.showDesktop .undefined w = self.execute (.str "-k off") w := by
  refine ⟨?_, ?_, rfl, rfl, ?_, rfl, rfl, rfl, rfl, rfl, rfl, rfl⟩
  · intro h
    simp only [Wmctrl.showDesktop, h, if_true]
    rfl
  · intro h
    simp only [Wmctrl.showDesktop, h]
    rfl
  · intro hnan hzero
    have ht : (JSValue.num x).toBoolean = true := by
      cases x with
      | nan => exact absurd rfl hnan
      | inf neg => rfl
      | fin neg m e =>
        simp only [JSNumber.isZero, beq_eq_false_iff_ne] at hzero
        simp only [JSValue.toBoolean, bne_iff_ne]
        exact hzero
    simp only [Wmctrl.showDesktop, ht, if_true]
    rfl

/-- Witness of C10: the truthy string `off`, the number `-1` and the falsy `undefined`. -/
theorem showDesktop_truthiness_witness :
    Wmctrl.showDesktop (Wmctrl.mk "/srv/app/lib/bin/wmctrl-amd64") (.str "off")
        (World.mk [] []) =
        Wmctrl.execute (Wmctrl.mk "/srv/app/lib/bin/wmctrl-amd64") (.str "-k on")
          (World.mk [] []) ∧
      Wmctrl.showDesktop (Wmctrl.mk "/srv/app/lib/bin/wmctrl-amd64")
        (.num (JSNumber.ofInt (-1))) (World.mk [] []) =
        Wmctrl.execute (Wmctrl.mk "/srv/app/lib/bin/wmctrl-amd64") (.str "-k on")
          (World.mk [] []) :=
  have h := showDesktop_truthiness (Wmctrl.mk "/srv/app/lib/bin/wmctrl-amd64") (World.mk [] [])
    (.str "off") (JSNumber.ofInt (-1))
  ⟨h.1 (by decide), h.2.2.2.2.1 (by decide) (by decide)⟩

end WmctrlWrapper
